import Mathlib

/-!
Shallow embedding of the journal-buddy backend core: the insights aggregations
(insights router), the context assembler / prompt builder / chat service
(claude service), and the chat router's message turn.

Modelling conventions, used throughout:
- SQL rows are Lean structures; a table is a `List` of rows; a SQL query is a
  filter over that list followed by a sort that realises its ORDER BY clause.
- Timestamps are integer day numbers; the route's 7-day window
  `now - 7*24*60*60*1000` milliseconds becomes `now - 7` days, and the ISO date
  string `toISOString().split('T')[0]` is rendered as the decimal day number.
- JavaScript number arithmetic on mood averages is modelled as exact rational
  arithmetic (`ℚ`); the float literals 0.1 and 0.2 become 1/10 and 1/5.
- JavaScript's stable `Array.prototype.sort` is modelled by a stable insertion
  sort; a stable sort's output is determined by the comparator, so any stable
  sort gives the JS result.
- A JS `Map` built by repeated `map.set(k, (map.get(k) || 0) + 1)` is an
  association list that preserves first-insertion order of keys.
- The external completion call (`anthropic.messages.create`) is a function
  parameter returning `Except CompletionError (List ContentBlock)`; a thrown
  error is the `Except.error` case.
-/

/-- JavaScript truthiness of a nullable string: null and the empty string are falsy. -/
def jsTruthy : Option String → Bool
  | none => false
  | some s => s ≠ ""

/-- JavaScript `x || d` for a nullable string `x`. -/
def jsOrElse (x : Option String) (d : String) : String :=
  match x with
  | none => d
  | some s => if s = "" then d else s

/-- JavaScript `s || d` for a string `s` (empty string is falsy). -/
def jsOrString (s d : String) : String :=
  if s = "" then d else s

/-- Insert into a list that is sorted descending by `key`, placing `x` before the
first element whose key is not larger; used to realise a stable descending sort. -/
def insertDescBy {α : Type} (key : α → Int) (x : α) : List α → List α
  | [] => [x]
  | y :: ys => if key y ≤ key x then x :: y :: ys else y :: insertDescBy key x ys

/-- Stable sort, descending by `key` (models a stable JS sort / SQL ORDER BY DESC). -/
def sortDescBy {α : Type} (key : α → Int) (l : List α) : List α :=
  l.foldr (insertDescBy key) []

/-- Insert into a list that is sorted ascending by `key`, keeping stability. -/
def insertAscBy {α : Type} (key : α → Int) (x : α) : List α → List α
  | [] => [x]
  | y :: ys => if key x ≤ key y then x :: y :: ys else y :: insertAscBy key x ys

/-- Stable sort, ascending by `key` (models SQL ORDER BY ASC). -/
def sortAscBy {α : Type} (key : α → Int) (l : List α) : List α :=
  l.foldr (insertAscBy key) []

/-- One `map.set(k, (map.get(k) || 0) + 1)` step on an insertion-ordered
association list: bump an existing key in place, or append a new key with count 1. -/
def bumpCount (acc : List (String × Nat)) (k : String) : List (String × Nat) :=
  if acc.any (fun p => p.1 == k) then
    acc.map (fun p => if p.1 == k then (p.1, p.2 + 1) else p)
  else acc ++ [(k, 1)]

/-- Frequency count of a key sequence, keys in first-seen order (a JS `Map`). -/
def countOccurrences (keys : List String) : List (String × Nat) :=
  keys.foldl bumpCount []

/-- A row of the `entries` table. `mood` is the nullable text column (expected
values good, okay, rough); `deletedAt` is the soft-delete marker. -/
structure EntryRow where
  id : Nat
  userId : Nat
  content : String
  mood : Option String
  tags : List String
  themes : List String
  wordCount : Nat
  createdAt : Int
  deletedAt : Option Int
deriving DecidableEq

/-- A row of the `summaries` table. -/
structure SummaryRow where
  userId : Nat
  periodStart : Int
  periodEnd : Int
  periodType : String
  summary : String
  entryCount : Nat
deriving DecidableEq

/-- Trend direction reported by the insights route. -/
inductive Trend
  | up
  | down
  | stable
deriving DecidableEq

/-- The insights entry query: rows of the user created inside the window, not
soft-deleted, newest first (`WHERE user_id = $1 AND created_at >= $2 AND
deleted_at IS NULL ORDER BY created_at DESC`). -/
def insightsEntries (store : List EntryRow) (userId : Nat) (startDate : Int) : List EntryRow :=
  sortDescBy (fun e => e.createdAt)
    (store.filter (fun e => e.userId == userId && startDate ≤ e.createdAt && e.deletedAt == none))

/-- Mood distribution buckets. -/
structure MoodStats where
  good : Nat
  okay : Nat
  rough : Nat
deriving DecidableEq

/-- Mood distribution: count per mood value, entries with no (or unknown) mood
counted in no bucket. -/
def moodDistribution (entries : List EntryRow) : MoodStats :=
  entries.foldl
    (fun acc e =>
      match e.mood with
      | some "good" => { acc with good := acc.good + 1 }
      | some "okay" => { acc with okay := acc.okay + 1 }
      | some "rough" => { acc with rough := acc.rough + 1 }
      | _ => acc)
    { good := 0, okay := 0, rough := 0 }

/-- The weight the aggregator assigns a mood: good 1, okay 0, rough -1; a missing
or unknown mood contributes 0. -/
def moodWeight (mood : Option String) : Int :=
  match mood with
  | some "good" => 1
  | some "okay" => 0
  | some "rough" => -1
  | _ => 0

/-- `moodScore` of the insights route: sum of mood weights over
`Math.max(entries.length, 1)` — entries without a mood contribute 0 to the sum
but count toward the denominator. -/
def moodScore (entries : List EntryRow) : ℚ :=
  ((entries.foldl (fun sum e => sum + moodWeight e.mood) 0 : Int) : ℚ)
    / ((max entries.length 1 : Nat) : ℚ)

/-- The insights route's mood trend: partition the newest-first list at the floor
midpoint; `entries.slice(midpoint)` (drop) is the older half and
`entries.slice(0, midpoint)` (take) the newer half; compare `moodScore`s with a
0.1 margin. -/
def insightsMoodTrend (entries : List EntryRow) : Trend :=
  let midpoint := entries.length / 2
  let firstHalf := entries.drop midpoint
  let secondHalf := entries.take midpoint
  if moodScore secondHalf > moodScore firstHalf + 1/10 then Trend.up
  else if moodScore secondHalf < moodScore firstHalf - 1/10 then Trend.down
  else Trend.stable

/-- The insights route's top tags: frequency-count all tags (first-seen order),
stable-sort descending by count, truncate to 5. -/
def topTags (entries : List EntryRow) : List (String × Nat) :=
  (sortDescBy (fun p => (p.2 : Int)) (countOccurrences ((entries.map (fun e => e.tags)).flatten))).take 5

/-- The insights route's top themes: like `topTags` over the theme lists, keeping
only the theme names. -/
def topThemes (entries : List EntryRow) : List String :=
  ((sortDescBy (fun p => (p.2 : Int)) (countOccurrences ((entries.map (fun e => e.themes)).flatten))).take 5).map
    (fun p => p.1)

/-- The streak query: distinct entry dates of the user's non-deleted entries,
newest first. -/
def streakDates (store : List EntryRow) (userId : Nat) : List Int :=
  sortDescBy (fun d => d)
    (((store.filter (fun e => e.userId == userId && e.deletedAt == none)).map
      (fun e => e.createdAt)).dedup)

/-- The walk of `calculateStreak`: starting from `cur` (today), count a date and
move to it while the day difference to the previously counted date is 0 or 1;
stop at the first larger difference. -/
def streakWalk : Int → List Int → Nat
  | _, [] => 0
  | cur, d :: ds => if cur - d = 0 ∨ cur - d = 1 then 1 + streakWalk d ds else 0

/-- `calculateStreak` of the insights route: the walk over the distinct-date query
starting from today. -/
def calculateStreak (store : List EntryRow) (userId : Nat) (today : Int) : Nat :=
  streakWalk today (streakDates store userId)

/-- Failure of the external completion call; subtypes (network, timeout,
model refusal) are not distinguished by the callers. -/
inductive CompletionError
  | timeout
  | network
  | refusal
deriving DecidableEq

/-- A content block of a completion response (`response.content`). -/
inductive ContentBlock
  | text (s : String)
  | other
deriving DecidableEq

/-- `response.content.find(block => block.type === 'text')`, keeping its text. -/
def extractTextOpt : List ContentBlock → Option String
  | [] => none
  | ContentBlock.text s :: _ => some s
  | ContentBlock.other :: rest => extractTextOpt rest

/-- Message role. -/
inductive Role
  | user
  | assistant
deriving DecidableEq

/-- One turn of the conversation history handed to the completion call. -/
structure ChatMessage where
  role : Role
  content : String
deriving DecidableEq

/-- An element of `ContextPayload.recentEntries`: the projection of an entry row
assembled by `assembleContext`. -/
structure RecentEntry where
  date : String
  content : String
  mood : Option String
  themes : List String
deriving DecidableEq

/-- The tiered context payload assembled per conversation turn. -/
structure ContextPayload where
  recentEntries : List RecentEntry
  moodTrend : String
  recurringThemes : List String
  longTermSummary : String
deriving DecidableEq

/-- The static persona block of the claude service, a fixed constant. -/
def BASE_SYSTEM_PROMPT : String :=
  "You are Tom's journal companion - a thoughtful presence who reads alongside him,\nnotices patterns, and engages when he wants to think out loud.\n\n## Your Core Purpose\n\nYou're not here to fix things or optimise Tom's life. You're here to help him\n*process* - to turn the noise in his head into something he can look at, examine,\nand understand. Sometimes that means asking questions. Sometimes it means just\nreflecting back what you hear. Sometimes it means noticing something he missed.\n\n## How You Show Up\n\n### Active Listening Over Advice\nYour default mode is curiosity, not solution-finding. When Tom shares something:\n- First, acknowledge what he's actually saying (not what you think he should focus on)\n- Reflect back the emotional texture, not just the facts\n- Ask questions that deepen exploration, not questions that steer toward answers\n\n### Pattern Recognition\nYou have access to Tom's journal history. Use it. Reference specific entries,\nnotice when themes repeat, track how his language changes over time.\n\n### Match His Energy\nRead the room. If he's venting, validate. If he's processing, follow his thread.\nIf he's celebrating, celebrate with him. If he's low energy, keep responses shorter.\n\n### Directness Over Comfort\nTom values honesty. Don't hedge with \"it might be worth considering...\" - just say the thing.\n\n### One Thread at a Time\nDon't overwhelm with multiple questions or observations. Pick the most interesting\nthread and pull it. Let him guide where this goes.\n\n## Communication Style\n\n- Dry humour welcome - Tom appreciates wit\n- Concise by default - expand only if asked\n- Specific over general - reference actual things he said\n- Questions are single - one at a time\n- No therapy-speak - avoid \"processing,\" \"holding space,\" etc."

/-- The context assembler's entry query: the user's non-deleted entries of the
last 7 days, newest first, capped at 10 (`LIMIT 10`). -/
def recentEntriesQuery (store : List EntryRow) (userId : Nat) (now : Int) : List EntryRow :=
  (sortDescBy (fun e => e.createdAt)
    (store.filter (fun e => e.userId == userId && now - 7 ≤ e.createdAt && e.deletedAt == none))).take 10

/-- Projection of an entry row into the payload shape (date string, content,
mood, themes). -/
def toRecentEntry (e : EntryRow) : RecentEntry :=
  { date := toString e.createdAt, content := e.content, mood := e.mood, themes := e.themes }

/-- `calculateMoodTrend` of the claude service: keep only entries whose mood is
truthy, map them to weights, report the sentinel when fewer than 2 remain, and
otherwise compare the average of the newer half of the weight list (first
`midpoint` values) with the older half, with a 0.2 margin. -/
def calculateMoodTrend (entries : List RecentEntry) : String :=
  let moodValues := (entries.filter (fun e => jsTruthy e.mood)).map
    (fun e =>
      match e.mood with
      | some "good" => (1 : Int)
      | some "okay" => (0 : Int)
      | some "rough" => (-1 : Int)
      | _ => (0 : Int))
  if moodValues.length < 2 then "Not enough data"
  else
    let midpoint := moodValues.length / 2
    let recentAvg := (((moodValues.take midpoint).foldl (· + ·) 0 : Int) : ℚ) / (midpoint : ℚ)
    let olderAvg := (((moodValues.drop midpoint).foldl (· + ·) 0 : Int) : ℚ)
      / ((moodValues.length - midpoint : Nat) : ℚ)
    if recentAvg > olderAvg + 1/5 then "Trending up compared to earlier this week"
    else if recentAvg < olderAvg - 1/5 then "Trending down compared to earlier this week"
    else "Relatively stable this week"

/-- Recurring themes of the context assembler: frequency-count the themes of the
recent entries, keep counts of at least 2, stable-sort descending by count, keep
the names, truncate to 5. -/
def recurringThemes (recentEntries : List RecentEntry) : List String :=
  (((sortDescBy (fun p => (p.2 : Int))
      ((countOccurrences ((recentEntries.map (fun e => e.themes)).flatten)).filter
        (fun p => 2 ≤ p.2))).map (fun p => p.1)).take 5)

/-- The most recent monthly summary row of a user
(`WHERE user_id = $1 AND period_type = 'monthly' ORDER BY period_start DESC LIMIT 1`). -/
def latestMonthlySummary (summaries : List SummaryRow) (userId : Nat) : Option SummaryRow :=
  (sortDescBy (fun s => s.periodStart)
    (summaries.filter (fun s => s.userId == userId && s.periodType == "monthly"))).head?

/-- `assembleContext` of the claude service, as a function of the two stores. -/
def assembleContext (entries : List EntryRow) (summaries : List SummaryRow)
    (userId : Nat) (now : Int) : ContextPayload :=
  let recents := (recentEntriesQuery entries userId now).map toRecentEntry
  { recentEntries := recents
    moodTrend := calculateMoodTrend recents
    recurringThemes := recurringThemes recents
    longTermSummary := jsOrElse ((latestMonthlySummary summaries userId).map (fun s => s.summary)) "" }

/-- The rendering of one recent entry inside the prompt's context section. -/
def renderRecentEntry (e : RecentEntry) : String :=
  "\n**" ++ e.date ++ "** (" ++ jsOrElse e.mood "no mood logged" ++ ")\n" ++ e.content ++ "\n"

/-- The `contextSection` template literal of `buildSystemPrompt`: every heading is
always rendered; empty backing data is replaced by placeholder text. -/
def contextSection (context : ContextPayload) : String :=
  "\n## Current Context\n\n### Recent Entries (Last 7 Days)\n" ++
    String.intercalate "\n---\n" (context.recentEntries.map renderRecentEntry) ++
    "\n\n### Mood Pattern\n" ++ context.moodTrend ++
    "\n\n### Recurring Themes\n" ++
    (if context.recurringThemes.length > 0 then String.intercalate ", " context.recurringThemes
     else "No clear patterns yet") ++
    "\n\n### Long-Term Context\n" ++
    jsOrString context.longTermSummary "No long-term summary available yet" ++ "\n"

/-- The `sessionSection` of `buildSystemPrompt`: rendered only when a truthy
current entry is in scope, empty otherwise. -/
def sessionSection (currentEntry : Option String) : String :=
  match currentEntry with
  | some s =>
    if s = "" then ""
    else "\n## This Session\n\n### Current Entry Being Discussed\n" ++ s ++ "\n"
  | none => ""

/-- `buildSystemPrompt` of the claude service. -/
def buildSystemPrompt (context : ContextPayload) (currentEntry : Option String) : String :=
  BASE_SYSTEM_PROMPT ++ "\n\n---\n" ++ contextSection context ++ "\n" ++ sessionSection currentEntry

/-- The reply text extraction of `chat`: the first text block's text, or the
canned fallback when there is no text block or its text is empty
(`textBlock?.text || ...`). -/
def extractChatText (blocks : List ContentBlock) : String :=
  jsOrElse (extractTextOpt blocks) "I'm having trouble responding right now."

/-- `chat` of the claude service: build the system prompt, invoke the completion
service (a thrown error propagates), and extract the reply text. -/
def chat (complete : String → List ChatMessage → Except CompletionError (List ContentBlock))
    (context : ContextPayload) (conversationHistory : List ChatMessage)
    (currentEntry : Option String) : Except CompletionError String :=
  match complete (buildSystemPrompt context currentEntry) conversationHistory with
  | Except.error e => Except.error e
  | Except.ok blocks => Except.ok (extractChatText blocks)

/-- The pattern-analysis result shape of `detectPatterns`; a theme is
(name, frequency, sentiment). -/
structure Patterns where
  themes : List (String × Nat × String)
  emotionalPattern : String
  unresolvedThreads : List String
  contradictions : List String
  growthIndicators : List String
deriving DecidableEq

/-- The fallback object `detectPatterns` returns when the response text cannot be
decoded as JSON. -/
def defaultPatterns : Patterns :=
  { themes := []
    emotionalPattern := "Unable to detect patterns"
    unresolvedThreads := []
    contradictions := []
    growthIndicators := [] }

/-- `detectPatterns` of the claude service, with the JSON decoding of the reply
abstracted as the `parse` parameter and the entries prompt as an opaque string: a
thrown completion error propagates, but a decode failure is replaced by
`defaultPatterns` (the `try/catch` around `JSON.parse(textBlock?.text || '\x7b\x7d')`). -/
def detectPatterns (complete : String → Except CompletionError (List ContentBlock))
    (parse : String → Option Patterns) (entriesPrompt : String) :
    Except CompletionError Patterns :=
  match complete entriesPrompt with
  | Except.error e => Except.error e
  | Except.ok blocks =>
    Except.ok
      (match parse (jsOrElse (extractTextOpt blocks) "\x7b\x7d") with
        | some p => p
        | none => defaultPatterns)

/-- Whether a summary row has the given period key (user, periodStart, periodType). -/
def summaryKeyIs (s : SummaryRow) (userId : Nat) (periodStart : Int) (periodType : String) : Bool :=
  s.userId == userId && s.periodStart == periodStart && s.periodType == periodType

/-- The summary lookup of the summary route
(`SELECT summary FROM summaries WHERE user_id = $1 AND period_start = $2 AND period_type = $3`). -/
def lookupSummary (summaries : List SummaryRow) (userId : Nat) (periodStart : Int)
    (periodType : String) : Option SummaryRow :=
  (summaries.filter (fun s => summaryKeyIs s userId periodStart periodType)).head?

/-- The entry query feeding summary generation: the user's non-deleted entries
since the period start, oldest first. -/
def summaryEntriesQuery (entries : List EntryRow) (userId : Nat) (startDate : Int) : List EntryRow :=
  sortAscBy (fun e => e.createdAt)
    (entries.filter (fun e => e.userId == userId && startDate ≤ e.createdAt && e.deletedAt == none))

/-- The `INSERT ... ON CONFLICT (user_id, period_start, period_type) DO UPDATE SET
summary = $5, entry_count = $6` write: update every row with the key (the key is
unique under the table invariant), else append the new row. Note the conflict
branch updates only `summary` and `entryCount`. -/
def upsertSummary (summaries : List SummaryRow) (row : SummaryRow) : List SummaryRow :=
  if summaries.any (fun s => summaryKeyIs s row.userId row.periodStart row.periodType) then
    summaries.map (fun s =>
      if summaryKeyIs s row.userId row.periodStart row.periodType then
        { s with summary := row.summary, entryCount := row.entryCount }
      else s)
  else summaries ++ [row]

/-- Outcome of one `GET /api/insights/summary` call: the summary text sent to the
client (none models the `summary: null` no-entries reply), the summaries table
after the call, and how many times the completion service was invoked. -/
structure SummaryCall where
  result : Option String
  store : List SummaryRow
  completionCalls : Nat
deriving DecidableEq

/-- The summary route: return the stored summary when one exists for the period
key; otherwise, with no entries in the period, reply without generating; otherwise
invoke the generator once and upsert the result. `generate` models
`generateWeeklySummary` as a deterministic function of the fetched entry rows. -/
def getOrGenerateSummary (generate : List EntryRow → String) (entries : List EntryRow)
    (summaries : List SummaryRow) (userId : Nat) (periodStart : Int) (now : Int)
    (periodType : String) : SummaryCall :=
  match lookupSummary summaries userId periodStart periodType with
  | some row => { result := some row.summary, store := summaries, completionCalls := 0 }
  | none =>
    let es := summaryEntriesQuery entries userId periodStart
    if es.length = 0 then { result := none, store := summaries, completionCalls := 0 }
    else
      let text := generate es
      { result := some text
        store := upsertSummary summaries
          { userId := userId, periodStart := periodStart, periodEnd := now,
            periodType := periodType, summary := text, entryCount := es.length }
        completionCalls := 1 }

/-- A row of the `conversations` table. -/
structure ConversationRow where
  id : Nat
  userId : Nat
  entryId : Option Nat
  sessionType : String
  deletedAt : Option Int
deriving DecidableEq

/-- A row of the `messages` table. -/
structure MessageRow where
  id : Nat
  conversationId : Nat
  role : Role
  content : String
  createdAt : Int
deriving DecidableEq

/-- The backend's persistent state as seen by the chat route. -/
structure DB where
  entries : List EntryRow
  conversations : List ConversationRow
  messages : List MessageRow
  summaries : List SummaryRow
deriving DecidableEq

/-- A validated `POST /api/chat` body. -/
structure ChatRequest where
  message : String
  conversationId : Option Nat
  entryId : Option Nat
deriving DecidableEq

/-- The chat route's failures: the 404 for an unknown conversation, and a
propagated completion failure (the route's try/catch forwards it). -/
inductive ChatError
  | conversationNotFound
  | completion (e : CompletionError)
deriving DecidableEq

/-- Conversation lookup of the chat route: by id AND user
(`WHERE id = $1 AND user_id = $2`). -/
def findConversation (db : DB) (cid : Nat) (userId : Nat) : Option ConversationRow :=
  (db.conversations.filter (fun c => c.id == cid && c.userId == userId)).head?

/-- New-conversation insertion of the chat route: the client-supplied entryId is
stored as-is, with no ownership or existence check. -/
def createConversation (db : DB) (userId : Nat) (entryId : Option Nat) (freshId : Nat) :
    ConversationRow × DB :=
  let c : ConversationRow :=
    { id := freshId, userId := userId, entryId := entryId,
      sessionType := if entryId.isSome then "entry_reflection" else "freeform",
      deletedAt := none }
  (c, { db with conversations := db.conversations ++ [c] })

/-- The conversation step of the chat route: continue the referenced conversation
(404 when it is not the caller's) or create a fresh one. -/
def resolveConversation (db : DB) (userId : Nat) (req : ChatRequest) (freshConvId : Nat) :
    Except ChatError (ConversationRow × DB) :=
  match req.conversationId with
  | some cid =>
    match findConversation db cid userId with
    | none => Except.error ChatError.conversationNotFound
    | some c => Except.ok (c, db)
  | none => Except.ok (createConversation db userId req.entryId freshConvId)

/-- Append a message row (an `INSERT INTO messages`). -/
def insertMessage (db : DB) (m : MessageRow) : DB :=
  { db with messages := db.messages ++ [m] }

/-- The history query of the chat route: all messages of the conversation, oldest
first, projected to role and content. -/
def conversationHistory (db : DB) (cid : Nat) : List ChatMessage :=
  (sortAscBy (fun m => m.createdAt) (db.messages.filter (fun m => m.conversationId == cid))).map
    (fun m => { role := m.role, content := m.content })

/-- The per-turn current-entry lookup of the chat route: when the conversation
references an entry, select it by id alone (`SELECT content FROM entries WHERE
id = $1`) — there is no user filter and no soft-delete filter. -/
def currentEntryLookup (db : DB) (conv : ConversationRow) : Option String :=
  match conv.entryId with
  | some eid => ((db.entries.filter (fun e => e.id == eid)).head?).map (fun e => e.content)
  | none => none

/-- The tail of a chat turn, given the completion outcome: a failure propagates
with the state as it was after the user-message insert; a success appends the
assistant message. -/
def chatTurnRespond (db2 : DB) (convId assistantMsgId : Nat) (now : Int)
    (res : Except CompletionError String) : Except ChatError String × DB :=
  match res with
  | Except.error e => (Except.error (ChatError.completion e), db2)
  | Except.ok response =>
    (Except.ok response,
      insertMessage db2
        { id := assistantMsgId, conversationId := convId, role := Role.assistant,
          content := response, createdAt := now })

/-- One `POST /api/chat` turn: resolve or create the conversation, persist the
user message, fetch the history, assemble the context, look up the current entry,
invoke `chat`, and persist the assistant message only on success. Returns the
route's outcome together with the state after the turn (mutations already done
before a failure are not rolled back). The conversation's `updated_at` touch is
not modelled. -/
def chatTurn (complete : String → List ChatMessage → Except CompletionError (List ContentBlock))
    (db : DB) (userId : Nat) (req : ChatRequest) (now : Int) (freshConvId freshMsgId : Nat) :
    Except ChatError String × DB :=
  match resolveConversation db userId req freshConvId with
  | Except.error e => (Except.error e, db)
  | Except.ok (conv, db1) =>
    let db2 := insertMessage db1
      { id := freshMsgId, conversationId := conv.id, role := Role.user,
        content := req.message, createdAt := now }
    let history := conversationHistory db2 conv.id
    let context := assembleContext db2.entries db2.summaries userId now
    let currentEntry := currentEntryLookup db2 conv
    chatTurnRespond db2 conv.id (freshMsgId + 1) now
      (chat complete context history currentEntry)

/-- The assistant-role rows of the message store. -/
def assistantMessages (db : DB) : List MessageRow :=
  db.messages.filter (fun m => m.role == Role.assistant)

/-- The weight list `moodValues` computed inside `calculateMoodTrend`, as a named
function: the truthy-mood entries mapped to their weights. -/
def moodValuesOf (entries : List RecentEntry) : List Int :=
  (entries.filter (fun e => jsTruthy e.mood)).map
    (fun e =>
      match e.mood with
      | some "good" => (1 : Int)
      | some "okay" => (0 : Int)
      | some "rough" => (-1 : Int)
      | _ => (0 : Int))

/-- `calculateMoodTrend` written with its weight list named; definitionally equal
to the source transcription. -/
theorem calculateMoodTrend_eq (entries : List RecentEntry) :
    calculateMoodTrend entries =
      (if (moodValuesOf entries).length < 2 then "Not enough data"
       else
        let midpoint := (moodValuesOf entries).length / 2
        let recentAvg :=
          ((((moodValuesOf entries).take midpoint).foldl (· + ·) 0 : Int) : ℚ) / (midpoint : ℚ)
        let olderAvg :=
          ((((moodValuesOf entries).drop midpoint).foldl (· + ·) 0 : Int) : ℚ)
            / (((moodValuesOf entries).length - midpoint : Nat) : ℚ)
        if recentAvg > olderAvg + 1/5 then "Trending up compared to earlier this week"
        else if recentAvg < olderAvg - 1/5 then "Trending down compared to earlier this week"
        else "Relatively stable this week") := rfl

/-- The trend direction a mood-trend string of the claude service names; the
sentinel and any other string map to none. -/
def trendOfLabel (s : String) : Option Trend :=
  if s = "Trending up compared to earlier this week" then some Trend.up
  else if s = "Trending down compared to earlier this week" then some Trend.down
  else if s = "Relatively stable this week" then some Trend.stable
  else none

/-- C6: with fewer than 2 entries in total — whatever their moods — the
claude-service mood trend is the insufficient-data sentinel, which names no trend
direction (never up, down or stable). -/
theorem C6_few_entries_sentinel (entries : List RecentEntry) (h : entries.length < 2) :
    calculateMoodTrend entries = "Not enough data" ∧
    trendOfLabel "Not enough data" = none := by
  constructor
  · have hl : (moodValuesOf entries).length < 2 := by
      have h1 : (moodValuesOf entries).length ≤ entries.length := by
        rw [moodValuesOf, List.length_map]
        exact List.length_filter_le _ _
      omega
    rw [calculateMoodTrend_eq, if_pos hl]
  · rfl

/-- C6 witness: the empty sequence and a one-entry sequence both give the sentinel. -/
theorem C6_witness :
    calculateMoodTrend [] = "Not enough data" ∧
    calculateMoodTrend
      [{ date := "99", content := "x", mood := some "good", themes := [] }] =
      "Not enough data" :=
  ⟨(C6_few_entries_sentinel [] (by decide)).1,
   (C6_few_entries_sentinel [{ date := "99", content := "x", mood := some "good", themes := [] }]
      (by decide)).1⟩

/-- Consecutive calendar days, `n` of them, newest first starting at `d`. -/
def contigDays : Int → Nat → List Int
  | _, 0 => []
  | d, n + 1 => d :: contigDays (d - 1) n

/-- The date list produced by walking from `cur` through the successive gaps `gs`. -/
def datesOfGaps : Int → List Int → List Int
  | _, [] => []
  | cur, g :: gs => (cur - g) :: datesOfGaps (cur - g) gs

/-- The streak walk's value as a function of the gap sequence alone. -/
def streakGaps : List Int → Nat
  | [] => 0
  | g :: gs => if g = 0 ∨ g = 1 then 1 + streakGaps gs else 0

theorem streakWalk_cons (cur d : Int) (ds : List Int) (h : cur - d = 0 ∨ cur - d = 1) :
    streakWalk cur (d :: ds) = 1 + streakWalk d ds := by
  simp only [streakWalk, if_pos h]

theorem streakWalk_contig_append (n : Nat) :
    ∀ (cur d : Int) (l : List Int), cur - d = 0 ∨ cur - d = 1 →
      streakWalk cur (contigDays d (n + 1) ++ l) = (n + 1) + streakWalk (d - n) l := by
  induction n with
  | zero =>
    intro cur d l h
    show streakWalk cur (d :: l) = _
    rw [streakWalk_cons cur d l h]
    simp
  | succ n ih =>
    intro cur d l h
    show streakWalk cur (d :: (contigDays (d - 1) (n + 1) ++ l)) = _
    rw [streakWalk_cons cur d _ h, ih d (d - 1) l (by omega)]
    have harg : d - 1 - (n : Int) = d - ((n + 1 : Nat) : Int) := by push_cast; ring
    rw [harg]
    ring

theorem streakWalk_contig (today : Int) (n : Nat) :
    streakWalk today (contigDays today n) = n := by
  cases n with
  | zero => rfl
  | succ n =>
    have h := streakWalk_contig_append n today today [] (Or.inl (sub_self today))
    simpa using h

theorem streakWalk_gap (today d2 : Int) (n : Nat) (rest : List Int)
    (h : 2 ≤ today - n - d2) :
    streakWalk today (contigDays today (n + 1) ++ d2 :: rest) = n + 1 := by
  rw [streakWalk_contig_append n today today _ (Or.inl (sub_self today))]
  have h0 : streakWalk (today - n) (d2 :: rest) = 0 := by
    simp only [streakWalk]
    rw [if_neg]
    omega
  rw [h0]

theorem streakWalk_datesOfGaps (gs : List Int) :
    ∀ cur : Int, streakWalk cur (datesOfGaps cur gs) = streakGaps gs := by
  induction gs with
  | nil => intro cur; rfl
  | cons g t ih =>
    intro cur
    simp only [datesOfGaps, streakWalk, streakGaps]
    have harg : cur - (cur - g) = g := by ring
    rw [harg, ih (cur - g)]

theorem streakGaps_mono {gs gs2 : List Int}
    (h : List.Forall₂ (fun g g2 => 0 ≤ g ∧ g ≤ g2) gs gs2) :
    streakGaps gs2 ≤ streakGaps gs := by
  induction h with
  | nil => exact le_refl 0
  | cons hp hrest ih =>
    rename_i a b l1 l2
    obtain ⟨h0, hab⟩ := hp
    simp only [streakGaps]
    by_cases hb : b = (0 : Int) ∨ b = (1 : Int)
    · have ha : a = (0 : Int) ∨ a = (1 : Int) := by omega
      rw [if_pos hb, if_pos ha]
      exact Nat.add_le_add_left ih 1
    · rw [if_neg hb]
      exact Nat.zero_le _

/-- C7: the streak walks backward from today continuing while the day difference
is 0 or 1: a contiguous run of n days ending today scores n; a gap of at least 2
days after an (n+1)-day run truncates the streak there whatever follows; widening
the gaps (pointwise, gaps non-negative) never increases the streak; and the
route's `calculateStreak` is exactly this walk over its distinct-date query. -/
theorem C7_streak_walk :
    (∀ (today : Int) (n : Nat), streakWalk today (contigDays today n) = n) ∧
    (∀ (today d2 : Int) (n : Nat) (rest : List Int), 2 ≤ today - n - d2 →
        streakWalk today (contigDays today (n + 1) ++ d2 :: rest) = n + 1) ∧
    (∀ (today : Int) (gs gs2 : List Int),
        List.Forall₂ (fun g g2 => 0 ≤ g ∧ g ≤ g2) gs gs2 →
        streakWalk today (datesOfGaps today gs2) ≤ streakWalk today (datesOfGaps today gs)) ∧
    (∀ (store : List EntryRow) (userId : Nat) (today : Int),
        calculateStreak store userId today = streakWalk today (streakDates store userId)) := by
  refine ⟨streakWalk_contig, streakWalk_gap, ?_, fun _ _ _ => rfl⟩
  intro today gs gs2 h
  rw [streakWalk_datesOfGaps gs today, streakWalk_datesOfGaps gs2 today]
  exact streakGaps_mono h

/-- C7 witness: three contiguous days score 3; a 3-day gap after a 2-day run
truncates at 2; widening a gap from 1 to 2 days does not increase the streak. -/
theorem C7_witness :
    streakWalk 100 (contigDays 100 3) = 3 ∧
    streakWalk 100 (contigDays 100 2 ++ 96 :: [95]) = 2 ∧
    streakWalk 100 (datesOfGaps 100 [0, 2]) ≤ streakWalk 100 (datesOfGaps 100 [0, 1]) :=
  ⟨C7_streak_walk.1 100 3,
   C7_streak_walk.2.1 100 96 1 [95] (by norm_num),
   C7_streak_walk.2.2.1 100 [0, 1] [0, 2]
     (List.Forall₂.cons (by norm_num) (List.Forall₂.cons (by norm_num) List.Forall₂.nil))⟩

theorem moodValuesOf_eq_map (entries : List RecentEntry) :
    moodValuesOf entries =
      (entries.filter (fun e => jsTruthy e.mood)).map (fun e => moodWeight e.mood) := rfl

/-- Mood trend as claim C1 states it: partition the FULL newest-first sequence at
its floor midpoint (newer half first), let entries lacking a mood contribute 0 to
a half's sum while still counting toward its denominator, and compare the two
averages with a 0.1 margin. -/
def moodTrendClaimC1 (entries : List RecentEntry) : Trend :=
  let midpoint := entries.length / 2
  let newerHalf := entries.take midpoint
  let olderHalf := entries.drop midpoint
  let newerAvg :=
    ((newerHalf.foldl (fun s e => s + moodWeight e.mood) 0 : Int) : ℚ) / (newerHalf.length : ℚ)
  let olderAvg :=
    ((olderHalf.foldl (fun s e => s + moodWeight e.mood) 0 : Int) : ℚ) / (olderHalf.length : ℚ)
  if newerAvg > olderAvg + 1/10 then Trend.up
  else if newerAvg < olderAvg - 1/10 then Trend.down
  else Trend.stable

/-- Claim C1 amended to what the code computes: the context-window trend first
restricts to the entries whose mood is set; with fewer than 2 such entries there
is no trend (the sentinel); otherwise it partitions the restricted sequence
(newest first) at its floor midpoint into a newer half (the first midpoint
weights, denominator midpoint) and an older half (the remaining weights,
denominator their count), and reports up exactly when newerAvg > olderAvg + 0.2,
down exactly when newerAvg < olderAvg − 0.2, and stable otherwise. -/
def moodTrendAmendedC1 (entries : List RecentEntry) : Option Trend :=
  let mooded := entries.filter (fun e => jsTruthy e.mood)
  if mooded.length < 2 then none
  else
    let midpoint := mooded.length / 2
    let newerAvg :=
      (((mooded.take midpoint).foldl (fun s e => s + moodWeight e.mood) 0 : Int) : ℚ)
        / (midpoint : ℚ)
    let olderAvg :=
      (((mooded.drop midpoint).foldl (fun s e => s + moodWeight e.mood) 0 : Int) : ℚ)
        / ((mooded.length - midpoint : Nat) : ℚ)
    if newerAvg > olderAvg + 1/5 then some Trend.up
    else if newerAvg < olderAvg - 1/5 then some Trend.down
    else some Trend.stable

/-- A two-entry input whose second entry lacks a mood: the claim computes a trend
from the full sequence, the code filters the unmooded entry out first and reports
the sentinel. -/
def exC1a : List RecentEntry :=
  [{ date := "99", content := "a", mood := some "good", themes := [] },
   { date := "98", content := "b", mood := none, themes := [] }]

/-- Ten mooded entries, newest first: one good then nine okay. The halves' average
difference is exactly 0.2: above the claim's 0.1 margin but not above the code's
0.2 margin. -/
def exC1b : List RecentEntry :=
  [{ date := "99", content := "e0", mood := some "good", themes := [] },
   { date := "98", content := "e1", mood := some "okay", themes := [] },
   { date := "97", content := "e2", mood := some "okay", themes := [] },
   { date := "96", content := "e3", mood := some "okay", themes := [] },
   { date := "95", content := "e4", mood := some "okay", themes := [] },
   { date := "94", content := "e5", mood := some "okay", themes := [] },
   { date := "93", content := "e6", mood := some "okay", themes := [] },
   { date := "92", content := "e7", mood := some "okay", themes := [] },
   { date := "91", content := "e8", mood := some "okay", themes := [] },
   { date := "90", content := "e9", mood := some "okay", themes := [] }]

/-- C1 counterexample: on `exC1a` the claim predicts up but the code reports the
sentinel (no trend at all), and on `exC1b` the claim predicts up but the code
reports stable — refuting both the claimed averaging population and the claimed
0.1 margin. -/
theorem C1_counterexample :
    (calculateMoodTrend exC1a = "Not enough data" ∧ moodTrendClaimC1 exC1a = Trend.up ∧
      trendOfLabel (calculateMoodTrend exC1a) ≠ some (moodTrendClaimC1 exC1a)) ∧
    (calculateMoodTrend exC1b = "Relatively stable this week" ∧
      moodTrendClaimC1 exC1b = Trend.up ∧
      trendOfLabel (calculateMoodTrend exC1b) ≠ some (moodTrendClaimC1 exC1b)) := by
  have ha1 : calculateMoodTrend exC1a = "Not enough data" := by
    rw [calculateMoodTrend_eq]
    have hmv : moodValuesOf exC1a = [1] := by decide
    rw [hmv]
    norm_num
  have ha2 : moodTrendClaimC1 exC1a = Trend.up := by
    simp only [moodTrendClaimC1, exC1a]
    norm_num [List.take, List.drop, List.foldl, moodWeight, jsTruthy]
  have hb1 : calculateMoodTrend exC1b = "Relatively stable this week" := by
    rw [calculateMoodTrend_eq]
    have hmv : moodValuesOf exC1b = [1, 0, 0, 0, 0, 0, 0, 0, 0, 0] := by decide
    rw [hmv]
    norm_num [List.take, List.drop, List.foldl]
  have hb2 : moodTrendClaimC1 exC1b = Trend.up := by
    simp only [moodTrendClaimC1, exC1b]
    norm_num [List.take, List.drop, List.foldl, moodWeight, jsTruthy]
  refine ⟨⟨ha1, ha2, ?_⟩, hb1, hb2, ?_⟩
  · rw [ha1, ha2]; decide
  · rw [hb1, hb2]; decide

/-- C1 amended: for every newest-first entry sequence, the context-window mood
trend of the code is exactly `moodTrendAmendedC1`: restrict to mooded entries,
sentinel below 2 of them, floor-midpoint partition of the restricted sequence,
averages over the restricted halves, 0.2 margins. -/
theorem C1_amended_trend (entries : List RecentEntry) :
    trendOfLabel (calculateMoodTrend entries) = moodTrendAmendedC1 entries := by
  rw [calculateMoodTrend_eq, moodValuesOf_eq_map]
  simp only [moodTrendAmendedC1, List.length_map, ← List.map_take, ← List.map_drop,
    List.foldl_map]
  by_cases h2 : (entries.filter (fun e => jsTruthy e.mood)).length < 2
  · rw [if_pos h2, if_pos h2]; rfl
  · rw [if_neg h2, if_neg h2]
    split_ifs <;> simp [trendOfLabel]

/-- The T-6 entry of the spec's concrete scenario: mood rough, tag work (now = 100). -/
def entC2a : EntryRow :=
  { id := 1, userId := 1, content := "worked late", mood := some "rough", tags := ["work"],
    themes := [], wordCount := 2, createdAt := 94, deletedAt := none }

/-- The T-3 entry of the scenario: mood okay, tags work and health. -/
def entC2b : EntryRow :=
  { id := 2, userId := 1, content := "ok day", mood := some "okay", tags := ["work", "health"],
    themes := [], wordCount := 2, createdAt := 97, deletedAt := none }

/-- The T-1 entry of the scenario: mood good, tag wins. -/
def entC2c : EntryRow :=
  { id := 3, userId := 1, content := "small win", mood := some "good", tags := ["wins"],
    themes := [], wordCount := 2, createdAt := 99, deletedAt := none }

/-- The scenario's entry list as the insights route fetches it: the week window
ending at day 100, newest first. -/
def fetchedC2 : List EntryRow := insightsEntries [entC2a, entC2b, entC2c] 1 93

/-- C2 counterexample: on the scenario's input, `topTags` does not return the
claimed [work 2, health 1, wins 1] and the mood trend is not down. -/
theorem C2_counterexample :
    topTags fetchedC2 ≠ [("work", 2), ("health", 1), ("wins", 1)] ∧
    insightsMoodTrend fetchedC2 ≠ Trend.down := by
  constructor
  · decide
  · have h : insightsMoodTrend fetchedC2 = Trend.up := by
      norm_num [fetchedC2, insightsEntries, sortDescBy, insertDescBy, entC2a, entC2b, entC2c,
        insightsMoodTrend, moodScore, moodWeight, List.foldl]
    rw [h]
    decide

/-- C2 amended: the route iterates the fetched entries newest first
([T-1, T-3, T-6]), so the tag map lists wins before health and the stable sort
returns [work 2, wins 1, health 1]; the trend partitions at midpoint 1 into the
newer half [T-1] with average 1 and the older half [T-3, T-6] with average −1/2,
yielding up. -/
theorem C2_amended :
    fetchedC2 = [entC2c, entC2b, entC2a] ∧
    topTags fetchedC2 = [("work", 2), ("wins", 1), ("health", 1)] ∧
    moodScore (fetchedC2.take 1) = 1 ∧
    moodScore (fetchedC2.drop 1) = -(1/2) ∧
    insightsMoodTrend fetchedC2 = Trend.up := by
  refine ⟨by decide, by decide, ?_, ?_, ?_⟩
  · norm_num [fetchedC2, insightsEntries, sortDescBy, insertDescBy, entC2a, entC2b, entC2c,
      moodScore, moodWeight, List.foldl]
  · norm_num [fetchedC2, insightsEntries, sortDescBy, insertDescBy, entC2a, entC2b, entC2c,
      moodScore, moodWeight, List.foldl]
  · norm_num [fetchedC2, insightsEntries, sortDescBy, insertDescBy, entC2a, entC2b, entC2c,
      insightsMoodTrend, moodScore, moodWeight, List.foldl]

theorem summaryKeyIs_iff (s : SummaryRow) (uid : Nat) (ps : Int) (pt : String) :
    summaryKeyIs s uid ps pt = true ↔
      s.userId = uid ∧ s.periodStart = ps ∧ s.periodType = pt := by
  simp [summaryKeyIs, Bool.and_eq_true, and_assoc]

theorem lookup_none_filter_nil {l : List SummaryRow} {uid : Nat} {ps : Int} {pt : String}
    (h : lookupSummary l uid ps pt = none) :
    l.filter (fun s => summaryKeyIs s uid ps pt) = [] := by
  rw [lookupSummary] at h
  cases hh : l.filter (fun s => summaryKeyIs s uid ps pt) with
  | nil => rfl
  | cons a t => rw [hh] at h; simp at h

theorem lookup_none_any_false {l : List SummaryRow} {uid : Nat} {ps : Int} {pt : String}
    (h : lookupSummary l uid ps pt = none) :
    l.any (fun s => summaryKeyIs s uid ps pt) = false := by
  have hf := lookup_none_filter_nil h
  rw [List.any_eq_false]
  intro s hs hp
  have hmem : s ∈ l.filter (fun s => summaryKeyIs s uid ps pt) :=
    List.mem_filter.mpr ⟨hs, hp⟩
  rw [hf] at hmem
  exact absurd hmem (List.not_mem_nil s)

theorem lookupSummary_append_self {l : List SummaryRow} (row : SummaryRow)
    (h : lookupSummary l row.userId row.periodStart row.periodType = none) :
    lookupSummary (l ++ [row]) row.userId row.periodStart row.periodType = some row := by
  rw [lookupSummary, List.filter_append, lookup_none_filter_nil h]
  simp [summaryKeyIs]

/-- At most one summary row per (user, periodStart, periodType) key. -/
def summariesUnique (l : List SummaryRow) : Prop :=
  List.Pairwise
    (fun a b =>
      ¬(a.userId = b.userId ∧ a.periodStart = b.periodStart ∧ a.periodType = b.periodType)) l

theorem summariesUnique_append {l : List SummaryRow} {row : SummaryRow}
    (h : lookupSummary l row.userId row.periodStart row.periodType = none)
    (hu : summariesUnique l) : summariesUnique (l ++ [row]) := by
  rw [summariesUnique, List.pairwise_append]
  refine ⟨hu, List.pairwise_singleton _ _, ?_⟩
  intro a ha b hb
  have hb2 : b = row := by simpa using hb
  rw [hb2]
  intro hk
  have hmem : a ∈ l.filter (fun s => summaryKeyIs s row.userId row.periodStart row.periodType) :=
    List.mem_filter.mpr ⟨ha, (summaryKeyIs_iff a row.userId row.periodStart row.periodType).mpr hk⟩
  rw [lookup_none_filter_nil h] at hmem
  exact absurd hmem (List.not_mem_nil a)

/-- C3: two successive summary-route calls for the same period key (the second
reading the store the first left behind) invoke the completion service at most
once in total; if the first call generated, the second returns the same text from
the cache without generating and without writing; if a summary was already stored
for the key, the call returns its text without generating or writing; and the
at-most-one-summary-per-key invariant is preserved. -/
theorem C3_summary_cached (generate : List EntryRow → String) (entries : List EntryRow)
    (summaries : List SummaryRow) (userId : Nat) (periodStart now now2 : Int)
    (periodType : String) (r1 r2 : SummaryCall)
    (h1 : r1 = getOrGenerateSummary generate entries summaries userId periodStart now periodType)
    (h2 : r2 = getOrGenerateSummary generate entries r1.store userId periodStart now2 periodType) :
    r1.completionCalls + r2.completionCalls ≤ 1 ∧
    (r1.completionCalls = 1 →
      r2.result = r1.result ∧ r2.completionCalls = 0 ∧ r2.store = r1.store) ∧
    (∀ row, lookupSummary summaries userId periodStart periodType = some row →
      r1.result = some row.summary ∧ r1.completionCalls = 0 ∧ r1.store = summaries) ∧
    (summariesUnique summaries → summariesUnique r1.store) := by
  subst h1
  subst h2
  cases hl : lookupSummary summaries userId periodStart periodType with
  | some row0 =>
    simp only [getOrGenerateSummary, hl]
    refine ⟨by norm_num, ?_, ?_, ?_⟩
    · intro h; exact absurd h (by norm_num)
    · intro row hrow
      cases hrow
      simp
    · intro hu; exact hu
  | none =>
    by_cases hlen : (summaryEntriesQuery entries userId periodStart).length = 0
    · simp only [getOrGenerateSummary, hl, if_pos hlen]
      refine ⟨by norm_num, ?_, ?_, ?_⟩
      · intro h; exact absurd h (by norm_num)
      · intro row hrow; simp at hrow
      · intro hu; exact hu
    · have hany : summaries.any (fun s => summaryKeyIs s userId periodStart periodType) = false :=
        lookup_none_any_false hl
      simp only [getOrGenerateSummary, hl, if_neg hlen]
      have hup : upsertSummary summaries
          { userId := userId, periodStart := periodStart, periodEnd := now,
            periodType := periodType,
            summary := generate (summaryEntriesQuery entries userId periodStart),
            entryCount := (summaryEntriesQuery entries userId periodStart).length } =
          summaries ++
            [{ userId := userId, periodStart := periodStart, periodEnd := now,
               periodType := periodType,
               summary := generate (summaryEntriesQuery entries userId periodStart),
               entryCount := (summaryEntriesQuery entries userId periodStart).length }] := by
        rw [upsertSummary, if_neg]
        simp [hany]
      rw [hup]
      have hl2 := lookupSummary_append_self
        (l := summaries)
        { userId := userId, periodStart := periodStart, periodEnd := now,
          periodType := periodType,
          summary := generate (summaryEntriesQuery entries userId periodStart),
          entryCount := (summaryEntriesQuery entries userId periodStart).length } hl
      simp only [getOrGenerateSummary, hl2]
      refine ⟨by norm_num, ?_, ?_, ?_⟩
      · intro _; simp
      · intro row hrow; simp at hrow
      · intro hu
        exact summariesUnique_append hl hu

/-- A plain entry for the C3 witness scenario. -/
def entW : EntryRow :=
  { id := 9, userId := 1, content := "w", mood := none, tags := [], themes := [],
    wordCount := 1, createdAt := 95, deletedAt := none }

/-- A deterministic completion model for the C3 witness scenario. -/
def genW : List EntryRow → String := fun _ => "GENTEXT"

/-- First call of the witness scenario: empty summary store, one entry in the period. -/
def r1W : SummaryCall := getOrGenerateSummary genW [entW] [] 1 90 100 "weekly"

/-- Second call of the witness scenario, reading the store the first call left. -/
def r2W : SummaryCall := getOrGenerateSummary genW [entW] r1W.store 1 90 101 "weekly"

/-- A pre-existing summary row for the cached branch of the witness. -/
def rowW : SummaryRow :=
  { userId := 1, periodStart := 90, periodEnd := 95, periodType := "weekly",
    summary := "OLD", entryCount := 1 }

/-- Call against a store that already holds a summary for the key. -/
def r1X : SummaryCall := getOrGenerateSummary genW [entW] [rowW] 1 90 100 "weekly"

/-- C3 witness: in the generate-then-read scenario the second call returns the
first call's text from the cache with no further generation; against a
pre-populated store the call returns the stored text without generating; and the
uniqueness invariant holds after the generating call. -/
theorem C3_witness :
    (r2W.result = r1W.result ∧ r2W.completionCalls = 0 ∧ r2W.store = r1W.store) ∧
    (r1X.result = some rowW.summary ∧ r1X.completionCalls = 0 ∧ r1X.store = [rowW]) ∧
    summariesUnique r1W.store :=
  ⟨(C3_summary_cached genW [entW] [] 1 90 100 101 "weekly" r1W r2W rfl rfl).2.1 (by decide),
   (C3_summary_cached genW [entW] [rowW] 1 90 100 101 "weekly" r1X
      (getOrGenerateSummary genW [entW] r1X.store 1 90 101 "weekly") rfl rfl).2.2.1 rowW
      (by decide),
   (C3_summary_cached genW [entW] [] 1 90 100 101 "weekly" r1W r2W rfl rfl).2.2.2
      List.Pairwise.nil⟩

/-- Contiguous substring containment on strings, via their character lists. -/
def StrContains (s sub : String) : Prop :=
  ∃ a b : List Char, s.data = a ++ (sub.data ++ b)

/-- A context payload with empty recurring themes (and no recent entries or
long-term summary) for the C4 counterexample. -/
def ctxC4 : ContextPayload :=
  { recentEntries := [], moodTrend := "Not enough data", recurringThemes := [],
    longTermSummary := "" }

theorem intercalate_nil_data (sep : String) : (sep.intercalate []).data = [] := rfl

set_option maxRecDepth 4000 in
/-- C4 counterexample: with `recurringThemes = []` the rendered prompt still
contains a Recurring Themes section, rendered with placeholder text, rather than
omitting the section. -/
theorem C4_counterexample :
    ctxC4.recurringThemes = [] ∧
    StrContains (buildSystemPrompt ctxC4 none) "### Recurring Themes\nNo clear patterns yet" := by
  refine ⟨rfl, ?_⟩
  refine ⟨(BASE_SYSTEM_PROMPT ++
    "\n\n---\n\n## Current Context\n\n### Recent Entries (Last 7 Days)\n\n\n### Mood Pattern\nNot enough data\n\n").data,
    ("\n\n### Long-Term Context\nNo long-term summary available yet\n\n").data, ?_⟩
  show (buildSystemPrompt ctxC4 none).data = _
  simp [buildSystemPrompt, contextSection, sessionSection, ctxC4, jsOrString,
    String.data_append, List.append_assoc, intercalate_nil_data]

set_option maxRecDepth 4000 in
/-- C4 amended: the prompt builder's only conditional omission is the current-entry
session section (absent when no truthy current entry is in scope); with empty
recurring themes or an empty long-term summary the corresponding headed sections
are still rendered, with placeholder text, in every output. -/
theorem C4_amended (context : ContextPayload) (cur : Option String) :
    (context.recurringThemes = [] →
      StrContains (buildSystemPrompt context cur) "### Recurring Themes\nNo clear patterns yet") ∧
    (context.longTermSummary = "" →
      StrContains (buildSystemPrompt context cur)
        "### Long-Term Context\nNo long-term summary available yet") ∧
    (sessionSection none = "") ∧
    (∀ s : String, s ≠ "" →
      buildSystemPrompt context (some s) =
        buildSystemPrompt context none ++
          ("\n## This Session\n\n### Current Entry Being Discussed\n" ++ s ++ "\n")) := by
  refine ⟨?_, ?_, rfl, ?_⟩
  · intro h
    refine ⟨(BASE_SYSTEM_PROMPT ++ "\n\n---\n\n## Current Context\n\n### Recent Entries (Last 7 Days)\n" ++
        String.intercalate "\n---\n" (context.recentEntries.map renderRecentEntry) ++
        "\n\n### Mood Pattern\n" ++ context.moodTrend ++ "\n\n").data,
      ("\n\n### Long-Term Context\n" ++
        jsOrString context.longTermSummary "No long-term summary available yet" ++ "\n\n" ++
        sessionSection cur).data, ?_⟩
    show (buildSystemPrompt context cur).data = _
    simp [buildSystemPrompt, contextSection, h, String.data_append, List.append_assoc]
  · intro h
    refine ⟨(BASE_SYSTEM_PROMPT ++ "\n\n---\n\n## Current Context\n\n### Recent Entries (Last 7 Days)\n" ++
        String.intercalate "\n---\n" (context.recentEntries.map renderRecentEntry) ++
        "\n\n### Mood Pattern\n" ++ context.moodTrend ++ "\n\n### Recurring Themes\n" ++
        (if context.recurringThemes.length > 0 then String.intercalate ", " context.recurringThemes
         else "No clear patterns yet") ++ "\n\n").data,
      ("\n\n" ++ sessionSection cur).data, ?_⟩
    show (buildSystemPrompt context cur).data = _
    simp [buildSystemPrompt, contextSection, h, jsOrString, String.data_append, List.append_assoc]
  · intro s hs
    have hd : (buildSystemPrompt context (some s)).data =
        (buildSystemPrompt context none ++
          ("\n## This Session\n\n### Current Entry Being Discussed\n" ++ s ++ "\n")).data := by
      simp [buildSystemPrompt, sessionSection, hs, String.data_append, List.append_assoc]
    cases hbuild : buildSystemPrompt context (some s)
    cases hbuild2 : buildSystemPrompt context none ++
      ("\n## This Session\n\n### Current Entry Being Discussed\n" ++ s ++ "\n")
    rw [hbuild, hbuild2] at hd
    exact congrArg String.mk (by simpa using hd)

/-- C4 witness: the amended statement instantiated at the empty-data payload and a
concrete current entry. -/
theorem C4_witness :
    StrContains (buildSystemPrompt ctxC4 none) "### Recurring Themes\nNo clear patterns yet" ∧
    StrContains (buildSystemPrompt ctxC4 none)
      "### Long-Term Context\nNo long-term summary available yet" ∧
    buildSystemPrompt ctxC4 (some "entry text") =
      buildSystemPrompt ctxC4 none ++
        ("\n## This Session\n\n### Current Entry Being Discussed\n" ++ "entry text" ++ "\n") :=
  ⟨(C4_amended ctxC4 none).1 rfl, (C4_amended ctxC4 none).2.1 rfl,
   (C4_amended ctxC4 none).2.2.2 "entry text" (by decide)⟩

/-- C9 counterexample: a completion call that returns successfully but with no
usable text is not surfaced as an error — `chat` substitutes the canned reply and
`detectPatterns` substitutes the default patterns object, both success values. -/
theorem C9_counterexample :
    chat (fun _ _ => Except.ok [ContentBlock.other]) ctxC4 [] none =
      Except.ok "I'm having trouble responding right now." ∧
    detectPatterns (fun _ => Except.ok [ContentBlock.text "not json"]) (fun _ => none)
      "entries" = Except.ok defaultPatterns := by
  exact ⟨rfl, rfl⟩

/-- C9 amended: thrown store/completion failures do propagate out of `chat` and
`detectPatterns`, but a completion success whose content carries no usable text is
replaced by a substitute success value: the canned reply in `chat`, and the
default patterns object in `detectPatterns` when the reply does not decode. -/
theorem C9_amended :
    (∀ (complete : String → List ChatMessage → Except CompletionError (List ContentBlock))
       (context : ContextPayload) (hist : List ChatMessage) (cur : Option String)
       (e : CompletionError),
       complete (buildSystemPrompt context cur) hist = Except.error e →
       chat complete context hist cur = Except.error e) ∧
    (∀ (complete : String → Except CompletionError (List ContentBlock))
       (parse : String → Option Patterns) (entriesPrompt : String) (e : CompletionError),
       complete entriesPrompt = Except.error e →
       detectPatterns complete parse entriesPrompt = Except.error e) ∧
    (∀ (complete : String → List ChatMessage → Except CompletionError (List ContentBlock))
       (context : ContextPayload) (hist : List ChatMessage) (cur : Option String)
       (blocks : List ContentBlock),
       complete (buildSystemPrompt context cur) hist = Except.ok blocks →
       extractTextOpt blocks = none →
       chat complete context hist cur =
         Except.ok "I'm having trouble responding right now.") ∧
    (∀ (complete : String → Except CompletionError (List ContentBlock))
       (parse : String → Option Patterns) (entriesPrompt : String)
       (blocks : List ContentBlock),
       complete entriesPrompt = Except.ok blocks →
       parse (jsOrElse (extractTextOpt blocks) "\x7b\x7d") = none →
       detectPatterns complete parse entriesPrompt = Except.ok defaultPatterns) := by
  refine ⟨?_, ?_, ?_, ?_⟩
  · intro complete context hist cur e h
    rw [chat, h]
  · intro complete parse entriesPrompt e h
    rw [detectPatterns, h]
  · intro complete context hist cur blocks h hblocks
    simp only [chat, h, extractChatText, hblocks, jsOrElse]
  · intro complete parse entriesPrompt blocks h hparse
    simp only [detectPatterns, h, hparse]

/-- C9 witness: the amended statement at concrete inputs — a throwing completion
propagates out of both operations; a refusal-shaped success is replaced by the
canned reply in chat and the default object in detectPatterns. -/
theorem C9_witness :
    chat (fun _ _ => Except.error CompletionError.timeout) ctxC4 [] none =
      Except.error CompletionError.timeout ∧
    detectPatterns (fun _ => Except.error CompletionError.timeout) (fun _ => none) "entries" =
      Except.error CompletionError.timeout ∧
    chat (fun _ _ => Except.ok [ContentBlock.other, ContentBlock.other]) ctxC4 [] none =
      Except.ok "I'm having trouble responding right now." ∧
    detectPatterns (fun _ => Except.ok []) (fun _ => none) "entries" =
      Except.ok defaultPatterns :=
  ⟨C9_amended.1 (fun _ _ => Except.error CompletionError.timeout) ctxC4 [] none
      CompletionError.timeout rfl,
   C9_amended.2.1 (fun _ => Except.error CompletionError.timeout) (fun _ => none) "entries"
      CompletionError.timeout rfl,
   C9_amended.2.2.1 (fun _ _ => Except.ok [ContentBlock.other, ContentBlock.other]) ctxC4 []
      none [ContentBlock.other, ContentBlock.other] rfl rfl,
   C9_amended.2.2.2 (fun _ => Except.ok []) (fun _ => none) "entries" [] rfl rfl⟩

theorem resolveConversation_messages {db : DB} {userId : Nat} {req : ChatRequest}
    {freshConvId : Nat} {conv : ConversationRow} {db1 : DB}
    (h : resolveConversation db userId req freshConvId = Except.ok (conv, db1)) :
    db1.messages = db.messages := by
  rw [resolveConversation] at h
  cases hc : req.conversationId with
  | some cid =>
    rw [hc] at h
    dsimp only at h
    cases hf : findConversation db cid userId with
    | none => rw [hf] at h; cases h
    | some c =>
      rw [hf] at h
      dsimp only at h
      cases h
      rfl
  | none =>
    rw [hc] at h
    dsimp only at h
    cases h
    rfl

theorem chatTurnRespond_error_state (db2 : DB) (cid mid : Nat) (now : Int)
    (res : Except CompletionError String) (err : ChatError)
    (h : (chatTurnRespond db2 cid mid now res).1 = Except.error err) :
    (chatTurnRespond db2 cid mid now res).2 = db2 := by
  cases res with
  | error e => rfl
  | ok r => simp [chatTurnRespond] at h

theorem assistantMessages_insert_user (db : DB) (m : MessageRow) (hm : m.role = Role.user) :
    assistantMessages (insertMessage db m) = assistantMessages db := by
  rw [assistantMessages, insertMessage]
  dsimp only
  rw [List.filter_append]
  have hnil : List.filter (fun m => m.role == Role.assistant) [m] = [] := by
    simp [hm]
  rw [hnil, List.append_nil]
  rfl

/-- C8: whenever a chat turn fails — in particular when the completion call fails,
by timeout or otherwise — no assistant message is persisted by that turn: the
assistant rows of the message store after the turn are exactly those present
before; and on the conversation-creating path a failing completion makes the turn
fail with exactly that completion error. -/
theorem C8_no_assistant_on_failure
    (complete : String → List ChatMessage → Except CompletionError (List ContentBlock))
    (db : DB) (userId : Nat) (req : ChatRequest) (now : Int) (f1 f2 : Nat) :
    (∀ err : ChatError, (chatTurn complete db userId req now f1 f2).1 = Except.error err →
      assistantMessages (chatTurn complete db userId req now f1 f2).2 =
        assistantMessages db) ∧
    (∀ e : CompletionError, req.conversationId = none →
      (∀ p h, complete p h = Except.error e) →
      (chatTurn complete db userId req now f1 f2).1 =
        Except.error (ChatError.completion e)) := by
  cases hr : resolveConversation db userId req f1 with
  | error e0 =>
    constructor
    · intro err _
      unfold chatTurn
      rw [hr]
    · intro e hnone _
      rw [resolveConversation, hnone] at hr
      cases hr
  | ok pair =>
    obtain ⟨conv, db1⟩ := pair
    have hm1 : db1.messages = db.messages := resolveConversation_messages hr
    constructor
    · intro err herr
      unfold chatTurn at herr ⊢
      rw [hr] at herr ⊢
      dsimp only at herr ⊢
      rw [chatTurnRespond_error_state _ _ _ _ _ _ herr]
      rw [assistantMessages_insert_user _ _ rfl]
      rw [assistantMessages, assistantMessages, hm1]
    · intro e hnone hfail
      unfold chatTurn
      rw [hr]
      dsimp only
      rw [chat, hfail]
      rfl

/-- An empty backend state for the C8 witness. -/
def dbW8 : DB := { entries := [], conversations := [], messages := [], summaries := [] }

/-- A fresh-conversation chat request for the C8 witness. -/
def reqW8 : ChatRequest := { message := "hello", conversationId := none, entryId := none }

/-- C8 witness: with a completion that always times out, the turn fails with that
completion error and the assistant rows are unchanged. -/
theorem C8_witness :
    (chatTurn (fun _ _ => Except.error CompletionError.timeout) dbW8 1 reqW8 100 50 60).1 =
      Except.error (ChatError.completion CompletionError.timeout) ∧
    assistantMessages
        (chatTurn (fun _ _ => Except.error CompletionError.timeout) dbW8 1 reqW8 100 50 60).2 =
      assistantMessages dbW8 :=
  ⟨(C8_no_assistant_on_failure (fun _ _ => Except.error CompletionError.timeout) dbW8 1 reqW8
      100 50 60).2 CompletionError.timeout rfl (fun _ _ => rfl),
   (C8_no_assistant_on_failure (fun _ _ => Except.error CompletionError.timeout) dbW8 1 reqW8
      100 50 60).1 (ChatError.completion CompletionError.timeout)
     ((C8_no_assistant_on_failure (fun _ _ => Except.error CompletionError.timeout) dbW8 1 reqW8
        100 50 60).2 CompletionError.timeout rfl (fun _ _ => rfl))⟩

/-- A completion model that replies with the exact system prompt it was given;
used to observe which prompt a chat turn sends to the completion service. -/
def echoComplete : String → List ChatMessage → Except CompletionError (List ContentBlock) :=
  fun prompt _ => Except.ok [ContentBlock.text prompt]

/-- A soft-deleted entry whose content should never reach a prompt. -/
def entDel : EntryRow :=
  { id := 3, userId := 1, content := "deleted entry secret", mood := some "good", tags := [],
    themes := [], wordCount := 3, createdAt := 99, deletedAt := some 100 }

/-- A conversation of the same user that references the deleted entry. -/
def convC5 : ConversationRow :=
  { id := 7, userId := 1, entryId := some 3, sessionType := "entry_reflection",
    deletedAt := none }

/-- Backend state for the C5 counterexample: one soft-deleted entry and a
conversation pointing at it. -/
def dbC5 : DB := { entries := [entDel], conversations := [convC5], messages := [], summaries := [] }

/-- A turn continuing that conversation. -/
def reqC5 : ChatRequest := { message := "hi", conversationId := some 7, entryId := none }

set_option maxRecDepth 8000 in
/-- C5 counterexample: the soft-deleted entry is invisible to the context
assembler's entry fetch, yet the same turn's current-entry lookup selects it by id
alone and its content reaches the system prompt sent to the completion service. -/
theorem C5_counterexample :
    entDel.deletedAt ≠ none ∧
    recentEntriesQuery dbC5.entries 1 100 = [] ∧
    (chatTurn echoComplete dbC5 1 reqC5 100 50 60).1 =
      Except.ok (buildSystemPrompt (assembleContext dbC5.entries dbC5.summaries 1 100)
        (some "deleted entry secret")) ∧
    StrContains
      (buildSystemPrompt (assembleContext dbC5.entries dbC5.summaries 1 100)
        (some "deleted entry secret"))
      "deleted entry secret" := by
  refine ⟨by decide, by decide, rfl, ?_⟩
  refine ⟨(BASE_SYSTEM_PROMPT ++ "\n\n---\n" ++
      contextSection (assembleContext dbC5.entries dbC5.summaries 1 100) ++
      "\n" ++ "\n## This Session\n\n### Current Entry Being Discussed\n").data,
    ("\n").data, ?_⟩
  show (buildSystemPrompt (assembleContext dbC5.entries dbC5.summaries 1 100)
      (some "deleted entry secret")).data = _
  simp [buildSystemPrompt, sessionSection, String.data_append, List.append_assoc]

theorem mem_insertDescBy {α : Type} (key : α → Int) (x a : α) :
    ∀ l : List α, a ∈ insertDescBy key x l ↔ a = x ∨ a ∈ l := by
  intro l
  induction l with
  | nil => simp [insertDescBy]
  | cons y ys ih =>
    rw [insertDescBy]
    by_cases h : key y ≤ key x
    · rw [if_pos h]
      simp [List.mem_cons]
    · rw [if_neg h]
      simp only [List.mem_cons, ih]
      tauto

theorem mem_sortDescBy {α : Type} (key : α → Int) (a : α) :
    ∀ l : List α, a ∈ sortDescBy key l ↔ a ∈ l := by
  intro l
  induction l with
  | nil => simp [sortDescBy]
  | cons y ys ih =>
    show a ∈ insertDescBy key y (sortDescBy key ys) ↔ _
    rw [mem_insertDescBy]
    simp only [List.mem_cons, ih]

theorem mem_insertAscBy {α : Type} (key : α → Int) (x a : α) :
    ∀ l : List α, a ∈ insertAscBy key x l ↔ a = x ∨ a ∈ l := by
  intro l
  induction l with
  | nil => simp [insertAscBy]
  | cons y ys ih =>
    rw [insertAscBy]
    by_cases h : key x ≤ key y
    · rw [if_pos h]
      simp [List.mem_cons]
    · rw [if_neg h]
      simp only [List.mem_cons, ih]
      tauto

theorem mem_sortAscBy {α : Type} (key : α → Int) (a : α) :
    ∀ l : List α, a ∈ sortAscBy key l ↔ a ∈ l := by
  intro l
  induction l with
  | nil => simp [sortAscBy]
  | cons y ys ih =>
    show a ∈ insertAscBy key y (sortAscBy key ys) ↔ _
    rw [mem_insertAscBy]
    simp only [List.mem_cons, ih]

/-- C5 amended: a soft-deleted entry is invisible to the context assembler's
recent-entry fetch and to every aggregation input — the insights window query,
the summary-generation query, and the streak's distinct-date query (whose every
date comes from a non-deleted entry) — but the chat turn's current-entry lookup
has no soft-delete filter, so an entry referenced by a conversation still reaches
the prompt after deletion (the counterexample). -/
theorem C5_amended (store : List EntryRow) (uid : Nat) (now startDate : Int) (e : EntryRow) :
    (e ∈ recentEntriesQuery store uid now → e.deletedAt = none) ∧
    (e ∈ insightsEntries store uid startDate → e.deletedAt = none) ∧
    (e ∈ summaryEntriesQuery store uid startDate → e.deletedAt = none) ∧
    (∀ d : Int, d ∈ streakDates store uid →
      ∃ e2, e2 ∈ store ∧ e2.deletedAt = none ∧ e2.createdAt = d) := by
  refine ⟨?_, ?_, ?_, ?_⟩
  · intro hmem
    rw [recentEntriesQuery] at hmem
    have h1 := List.mem_of_mem_take hmem
    rw [mem_sortDescBy] at h1
    have h2 := (List.mem_filter.mp h1).2
    simp only [Bool.and_eq_true, beq_iff_eq] at h2
    exact h2.2
  · intro hmem
    rw [insightsEntries, mem_sortDescBy] at hmem
    have h2 := (List.mem_filter.mp hmem).2
    simp only [Bool.and_eq_true, beq_iff_eq] at h2
    exact h2.2
  · intro hmem
    rw [summaryEntriesQuery, mem_sortAscBy] at hmem
    have h2 := (List.mem_filter.mp hmem).2
    simp only [Bool.and_eq_true, beq_iff_eq] at h2
    exact h2.2
  · intro d hd
    rw [streakDates, mem_sortDescBy, List.mem_dedup] at hd
    obtain ⟨e2, he2, hcd⟩ := List.mem_map.mp hd
    have hf := List.mem_filter.mp he2
    have hp := hf.2
    simp only [Bool.and_eq_true, beq_iff_eq] at hp
    exact ⟨e2, hf.1, hp.2, hcd⟩

/-- A live (non-deleted) entry for the C5 witness. -/
def entLive : EntryRow :=
  { id := 1, userId := 1, content := "alive", mood := none, tags := [], themes := [],
    wordCount := 1, createdAt := 99, deletedAt := none }

/-- C5 witness: the amended statement instantiated at a one-entry store. -/
theorem C5_witness :
    entLive.deletedAt = none ∧
    (∃ e2, e2 ∈ [entLive] ∧ e2.deletedAt = none ∧ e2.createdAt = 99) :=
  ⟨(C5_amended [entLive] 1 100 90 entLive).1 (by decide),
   (C5_amended [entLive] 1 100 90 entLive).2.2.2 99 (by decide)⟩

/-- An entry owned by user 2, not deleted. -/
def entForeign : EntryRow :=
  { id := 21, userId := 2, content := "private entry of user two", mood := none, tags := [],
    themes := [], wordCount := 5, createdAt := 99, deletedAt := none }

/-- Backend state for C10: only user 2's entry exists. -/
def dbC10 : DB :=
  { entries := [entForeign], conversations := [], messages := [], summaries := [] }

/-- User 1's new-conversation request that names user 2's entry id. -/
def reqC10A : ChatRequest := { message := "hi", conversationId := none, entryId := some 21 }

/-- The same request without the foreign entry id. -/
def reqC10B : ChatRequest := { message := "hi", conversationId := none, entryId := none }

set_option maxRecDepth 8000 in
/-- C10: a chat turn by user 1 whose new conversation stores a client-supplied
entryId owned by user 2 sends the completion service a prompt containing that
foreign entry's content — the per-turn lookup selects by id alone — and the two
requests differing only in the entryId produce different prompts, differing in
that entry's content. -/
theorem C10_cross_user_entry_in_prompt :
    entForeign.userId = 2 ∧
    (chatTurn echoComplete dbC10 1 reqC10A 100 50 60).1 =
      Except.ok (buildSystemPrompt (assembleContext dbC10.entries dbC10.summaries 1 100)
        (some entForeign.content)) ∧
    StrContains
      (buildSystemPrompt (assembleContext dbC10.entries dbC10.summaries 1 100)
        (some entForeign.content))
      entForeign.content ∧
    (chatTurn echoComplete dbC10 1 reqC10B 100 50 60).1 =
      Except.ok (buildSystemPrompt (assembleContext dbC10.entries dbC10.summaries 1 100)
        none) ∧
    buildSystemPrompt (assembleContext dbC10.entries dbC10.summaries 1 100)
        (some entForeign.content) ≠
      buildSystemPrompt (assembleContext dbC10.entries dbC10.summaries 1 100) none := by
  refine ⟨rfl, rfl, ?_, rfl, ?_⟩
  · refine ⟨(BASE_SYSTEM_PROMPT ++ "\n\n---\n" ++
        contextSection (assembleContext dbC10.entries dbC10.summaries 1 100) ++
        "\n" ++ "\n## This Session\n\n### Current Entry Being Discussed\n").data,
      ("\n").data, ?_⟩
    show (buildSystemPrompt (assembleContext dbC10.entries dbC10.summaries 1 100)
        (some entForeign.content)).data = _
    simp [buildSystemPrompt, sessionSection, entForeign, String.data_append, List.append_assoc]
  · intro h
    have hd := congrArg String.data h
    simp [buildSystemPrompt, sessionSection, entForeign, String.data_append,
      List.append_assoc] at hd
